import Mathlib

/-!
Verification development for the SSH video cache / streaming subsystem:
VideoSSHManager.js (cache, download coordinator, sweep), the videos-ssh
routes (stream / info / rename / delete), and the '/content' proxy
middleware of the server entry file.

JS strings are modelled as their UTF-8 byte sequences (`List Nat`), so
Buffer.from(s) / buf.toString() are the identity embedding and all the
string operations the routes use (includes, split, replace, parseInt,
basename) act on byte lists.
-/

/-- A JS string, modelled as its UTF-8 byte sequence. -/
abbrev JSStr := List Nat

/-- Byte sequence of an ASCII string literal (code points = UTF-8 bytes). -/
def strBytes (s : String) : JSStr := s.toList.map Char.toNat

/-- Base64 alphabet of Node's Buffer: char code of sextet n. -/
def b64CharCode (n : Nat) : Nat :=
  if n < 26 then 65 + n
  else if n < 52 then 97 + (n - 26)
  else if n < 62 then 48 + (n - 52)
  else if n = 62 then 43
  else 47

/-- Inverse alphabet: sextet value of a char code, none for non-alphabet
chars, including the padding char 61. -/
def b64Value (c : Nat) : Option Nat :=
  if 65 ≤ c ∧ c ≤ 90 then some (c - 65)
  else if 97 ≤ c ∧ c ≤ 122 then some (c - 97 + 26)
  else if 48 ≤ c ∧ c ≤ 57 then some (c - 48 + 52)
  else if c = 43 then some 62
  else if c = 47 then some 63
  else none

/-- Node Buffer.prototype.toString('base64'): each 3 input bytes become 4
alphabet chars; a 1- or 2-byte tail is padded with 61 ('='). -/
def base64Encode : List Nat → List Nat
  | [] => []
  | [a] => [b64CharCode (a / 4), b64CharCode (a % 4 * 16), 61, 61]
  | [a, b] => [b64CharCode (a / 4), b64CharCode (a % 4 * 16 + b / 16),
               b64CharCode (b % 16 * 4), 61]
  | a :: b :: c :: rest =>
      b64CharCode (a / 4) :: b64CharCode (a % 4 * 16 + b / 16) ::
      b64CharCode (b % 16 * 4 + c / 64) :: b64CharCode (c % 64) :: base64Encode rest

/-- Reassemble bytes from a sextet stream: each 4 sextets give 3 bytes, a
2- or 3-sextet tail gives 1 or 2 bytes. -/
def sextetsToBytes : List Nat → List Nat
  | a :: b :: c :: d :: rest =>
      (a * 4 + b / 16) :: (b % 16 * 16 + c / 4) :: (c % 4 * 64 + d) :: sextetsToBytes rest
  | [a, b] => [a * 4 + b / 16]
  | [a, b, c] => [a * 4 + b / 16, b % 16 * 16 + c / 4]
  | _ => []

/-- Node Buffer.from(s, 'base64'): non-alphabet chars (padding included)
are ignored, the remaining sextets are reassembled into bytes. -/
def base64Decode (s : List Nat) : List Nat :=
  sextetsToBytes (s.filterMap b64Value)

/-- VideoSSHManager.listVideosFromServer, line 93: the video identifier is
Buffer.from(fullPath).toString('base64'). -/
def encodeVideoId (fullPath : JSStr) : JSStr := base64Encode fullPath

/-- The decoding used by the stream/info/rename/delete routes
(videos-ssh.js lines 184, 291, 339, 437, 489):
Buffer.from(videoId, 'base64').toString(). -/
def decodeVideoId (videoId : JSStr) : JSStr := base64Decode videoId

theorem b64_value_code : ∀ n < 64, b64Value (b64CharCode n) = some n := by decide

theorem b64_value_pad : b64Value 61 = none := by decide

theorem base64_roundtrip : ∀ l : List Nat, (∀ b ∈ l, b < 256) →
    base64Decode (base64Encode l) = l := by
  intro l
  induction l using base64Encode.induct with
  | case1 =>
    intro h
    rfl
  | case2 a =>
    intro h
    have ha : a < 256 := h a (by simp)
    have h1 : b64Value (b64CharCode (a / 4)) = some (a / 4) := b64_value_code _ (by omega)
    have h2 : b64Value (b64CharCode (a % 4 * 16)) = some (a % 4 * 16) :=
      b64_value_code _ (by omega)
    simp only [base64Encode, base64Decode, List.filterMap_cons, h1, h2, b64_value_pad,
      List.filterMap_nil, sextetsToBytes]
    simp only [List.cons.injEq, and_true]
    omega
  | case3 a b =>
    intro h
    have ha : a < 256 := h a (by simp)
    have hb : b < 256 := h b (by simp)
    have h1 : b64Value (b64CharCode (a / 4)) = some (a / 4) := b64_value_code _ (by omega)
    have h2 : b64Value (b64CharCode (a % 4 * 16 + b / 16)) = some (a % 4 * 16 + b / 16) :=
      b64_value_code _ (by omega)
    have h3 : b64Value (b64CharCode (b % 16 * 4)) = some (b % 16 * 4) :=
      b64_value_code _ (by omega)
    simp only [base64Encode, base64Decode, List.filterMap_cons, h1, h2, h3, b64_value_pad,
      List.filterMap_nil, sextetsToBytes]
    simp only [List.cons.injEq, and_true]
    omega
  | case4 a b c rest ih =>
    intro h
    have ha : a < 256 := h a (by simp)
    have hb : b < 256 := h b (by simp)
    have hc : c < 256 := h c (by simp)
    have ih2 : sextetsToBytes ((base64Encode rest).filterMap b64Value) = rest := by
      have := ih (fun x hx => h x (by simp [hx]))
      simpa [base64Decode] using this
    have h1 : b64Value (b64CharCode (a / 4)) = some (a / 4) := b64_value_code _ (by omega)
    have h2 : b64Value (b64CharCode (a % 4 * 16 + b / 16)) = some (a % 4 * 16 + b / 16) :=
      b64_value_code _ (by omega)
    have h3 : b64Value (b64CharCode (b % 16 * 4 + c / 64)) = some (b % 16 * 4 + c / 64) :=
      b64_value_code _ (by omega)
    have h4 : b64Value (b64CharCode (c % 64)) = some (c % 64) := b64_value_code _ (by omega)
    simp only [base64Encode, base64Decode, List.filterMap_cons, h1, h2, h3, h4, sextetsToBytes,
      ih2]
    simp only [List.cons.injEq, and_true]
    refine ⟨by omega, by omega, by omega⟩

/-- C1: for every absolute remote path P (any byte sequence), decoding the
video identifier produced for P yields P again: the base64 encoding used by
listVideosFromServer and the decoding used by the stream/info/rename/delete
routes are mutually inverse. -/
theorem C1_encode_decode_roundtrip (P : JSStr) (h : ∀ b ∈ P, b < 256) :
    decodeVideoId (encodeVideoId P) = P :=
  base64_roundtrip P h

/-- Witness for C1 at a concrete absolute remote path. -/
theorem C1_encode_decode_roundtrip_witness :
    (∀ b ∈ strBytes ("/usr/local/WowzaStreamingEngine/content/alice/clips/v.mp4"), b < 256) ∧
    decodeVideoId (encodeVideoId
        (strBytes ("/usr/local/WowzaStreamingEngine/content/alice/clips/v.mp4")))
      = strBytes ("/usr/local/WowzaStreamingEngine/content/alice/clips/v.mp4") :=
  ⟨by decide, C1_encode_decode_roundtrip _ (by decide)⟩

/-- Whitespace bytes skipped by JS parseInt before the number. -/
def isJsSpace (c : Nat) : Bool :=
  (c == 32) || (c == 9) || (c == 10) || (c == 11) || (c == 12) || (c == 13)

/-- ASCII decimal digit test. -/
def isDigitByte (c : Nat) : Bool := decide (48 ≤ c ∧ c ≤ 57)

/-- Value of the maximal digit prefix, as scanned by JS parseInt with
radix 10; none (JS NaN) when there is no digit. -/
def digitsVal (l : JSStr) : Option Nat :=
  let ds := l.takeWhile isDigitByte
  if ds.isEmpty then none
  else some (ds.foldl (fun acc d => acc * 10 + (d - 48)) 0)

/-- JS parseInt(s, 10): skip leading whitespace, optional sign (43 '+',
45 '-'), then the maximal digit prefix; NaN is modelled as none. -/
def parseIntJS (s : JSStr) : Option Int :=
  match s.dropWhile isJsSpace with
  | [] => none
  | c :: rest =>
    if c = 43 then (digitsVal rest).map (fun n => (n : Int))
    else if c = 45 then (digitsVal rest).map (fun n => -(n : Int))
    else (digitsVal (c :: rest)).map (fun n => (n : Int))

/-- JS String.prototype.split on a one-char separator: splits at every
occurrence and keeps empty fields. -/
def jsSplit (sep : Nat) : JSStr → List JSStr
  | [] => [[]]
  | c :: rest =>
    if c = sep then [] :: jsSplit sep rest
    else
      match jsSplit sep rest with
      | [] => [[c]]
      | p :: ps => (c :: p) :: ps

/-- Whether pat is a prefix of s. -/
def isPrefixBytes : JSStr → JSStr → Bool
  | [], _ => true
  | _ :: _, [] => false
  | p :: ps, c :: cs => (p == c) && isPrefixBytes ps cs

/-- JS str.replace(pat, "") for a plain-text regex: removes the first
occurrence of pat only, leaves s unchanged when pat does not occur. -/
def removeFirstSub (pat : JSStr) : JSStr → JSStr
  | [] => []
  | c :: rest =>
    if isPrefixBytes pat (c :: rest) then (c :: rest).drop pat.length
    else c :: removeFirstSub pat rest

/-- JS String.prototype.includes for a substring. -/
def containsSub (pat : JSStr) : JSStr → Bool
  | [] => pat.isEmpty
  | c :: rest => isPrefixBytes pat (c :: rest) || containsSub pat rest

/-- Node path.basename for the paths used here (no trailing separator):
the component after the last '/' (47). -/
def basenameJS (p : JSStr) : JSStr :=
  (jsSplit 47 p).getLastD []

/-- Decimal digit bytes of a natural number. -/
def natBytes (n : Nat) : JSStr :=
  if n < 10 then [48 + n]
  else natBytes (n / 10) ++ [48 + n % 10]
termination_by n
decreasing_by exact Nat.div_lt_self (by omega) (by omega)

/-- A JS number that may be NaN: none models NaN. -/
abbrev JSNum := Option Int

/-- JS subtraction with NaN propagation. -/
def jsSub (a b : JSNum) : JSNum :=
  match a, b with
  | some x, some y => some (x - y)
  | _, _ => none

/-- JS addition with NaN propagation. -/
def jsAdd (a b : JSNum) : JSNum :=
  match a, b with
  | some x, some y => some (x + y)
  | _, _ => none

/-- Response assembled by the stream route once the local file is
resolved (videos-ssh.js lines 377-401): HTTP status, the final
Content-Length, the Content-Range triple when present, and the
start/end options passed to fs.createReadStream (none = whole file). -/
structure StreamResponse where
  status : Nat
  contentLength : JSNum
  contentRange : Option (JSNum × JSNum × Nat)
  streamRange : Option (JSNum × JSNum)
deriving DecidableEq

/-- The pattern of the replace call at line 387: "bytes=". -/
def bytesEqPat : JSStr := strBytes ("bytes=")

/-- The absent-or-falsy-Range response: status 200, Content-Length =
file size (line 379), whole-file read stream (line 399). -/
def fullResponse (size : Nat) : StreamResponse :=
  ⟨200, some (size : Int), none, none⟩

/-- videos-ssh.js GET /stream lines 385-401: when a truthy Range header
is present, strip the first "bytes=", split on '-', parseInt both parts
(the end defaults to size-1 when parts[1] is falsy), answer 206 with
Content-Range bytes start-end/size and Content-Length end-start+1, and
open the read stream on exactly those offsets; otherwise status 200 with
the full content. -/
def serveLocalFile (size : Nat) (range : Option JSStr) : StreamResponse :=
  match range with
  | none => fullResponse size
  | some r =>
    if r.isEmpty then fullResponse size
    else
      let parts := jsSplit 45 (removeFirstSub bytesEqPat r)
      let s := parseIntJS (parts.headD [])
      let e : JSNum :=
        match parts.drop 1 with
        | [] => some ((size : Int) - 1)
        | p :: _ => if p.isEmpty then some ((size : Int) - 1) else parseIntJS p
      ⟨206, jsAdd (jsSub e s) (some 1), some (s, e, size), some (s, e)⟩

theorem natBytes_all_digits : ∀ (n : Nat), ∀ c ∈ natBytes n, isDigitByte c = true := by
  intro n
  induction n using natBytes.induct with
  | case1 n hlt =>
    intro c hc
    rw [natBytes, if_pos hlt] at hc
    simp only [List.mem_singleton] at hc
    subst hc
    simp only [isDigitByte, decide_eq_true_eq]
    omega
  | case2 n hlt ih =>
    intro c hc
    rw [natBytes, if_neg hlt] at hc
    rcases List.mem_append.mp hc with h | h
    · exact ih c h
    · simp only [List.mem_singleton] at h
      subst h
      simp only [isDigitByte, decide_eq_true_eq]
      omega

theorem natBytes_ne_nil (n : Nat) : natBytes n ≠ [] := by
  rw [natBytes]
  split
  · simp
  · simp [natBytes_ne_nil (n / 10)]
termination_by n
decreasing_by exact Nat.div_lt_self (by omega) (by omega)

theorem natBytes_foldl (n : Nat) : ∀ a : Nat,
    (natBytes n).foldl (fun acc d => acc * 10 + (d - 48)) a
      = a * 10 ^ (natBytes n).length + n := by
  induction n using natBytes.induct with
  | case1 n hlt =>
    intro a
    rw [natBytes, if_pos hlt]
    simp only [List.foldl_cons, List.foldl_nil, List.length_cons, List.length_nil]
    have : 48 + n - 48 = n := by omega
    rw [this]
    ring
  | case2 n hlt ih =>
    intro a
    rw [natBytes, if_neg hlt]
    rw [List.foldl_append, List.length_append]
    rw [ih a]
    simp only [List.foldl_cons, List.foldl_nil, List.length_cons, List.length_nil]
    have h1 : 48 + n % 10 - 48 = n % 10 := by omega
    rw [h1, pow_succ]
    have h2 : n / 10 * 10 + n % 10 = n := by omega
    calc (a * 10 ^ (natBytes (n / 10)).length + n / 10) * 10 + n % 10
      = a * (10 ^ (natBytes (n / 10)).length * 10) + (n / 10 * 10 + n % 10) := by ring
    _ = a * (10 ^ (natBytes (n / 10)).length * 10) + n := by rw [h2]

theorem digitsVal_natBytes (n : Nat) : digitsVal (natBytes n) = some n := by
  have hall : (natBytes n).takeWhile isDigitByte = natBytes n :=
    List.takeWhile_eq_self_iff.mpr (natBytes_all_digits n)
  rw [digitsVal]
  simp only [hall, List.isEmpty_eq_true]
  rw [if_neg (natBytes_ne_nil n)]
  rw [natBytes_foldl n 0]
  simp

theorem parseIntJS_natBytes (n : Nat) : parseIntJS (natBytes n) = some (n : Int) := by
  obtain ⟨c, cs, hcons⟩ : ∃ c cs, natBytes n = c :: cs := by
    cases h : natBytes n with
    | nil => exact absurd h (natBytes_ne_nil n)
    | cons c cs => exact ⟨c, cs, rfl⟩
  have hdig : isDigitByte c = true := natBytes_all_digits n c (by rw [hcons]; simp)
  have hc : 48 ≤ c ∧ c ≤ 57 := by simpa [isDigitByte] using hdig
  have hspace : isJsSpace c = false := by
    simp only [isJsSpace, Bool.or_eq_false_iff, beq_eq_false_iff_ne, ne_eq]
    omega
  rw [parseIntJS, hcons, List.dropWhile_cons_of_neg (by simp [hspace])]
  show (if c = 43 then (digitsVal cs).map (fun m => (m : Int))
    else if c = 45 then (digitsVal cs).map (fun m => -(m : Int))
    else (digitsVal (c :: cs)).map (fun m => (m : Int))) = some (n : Int)
  rw [if_neg (by omega : ¬ c = 43), if_neg (by omega : ¬ c = 45)]
  rw [← hcons, digitsVal_natBytes n]
  rfl

theorem jsSplit_ne_nil (sep : Nat) (l : JSStr) : jsSplit sep l ≠ [] := by
  cases l with
  | nil => simp [jsSplit]
  | cons c rest =>
    rw [jsSplit]
    split
    · simp
    · split <;> simp

theorem jsSplit_no_sep (sep : Nat) : ∀ l : JSStr, sep ∉ l → jsSplit sep l = [l] := by
  intro l
  induction l with
  | nil => intro _; rfl
  | cons c rest ih =>
    intro h
    have hc : c ≠ sep := fun he => h (by simp [he])
    have hr : sep ∉ rest := fun hm => h (by simp [hm])
    rw [jsSplit, if_neg hc, ih hr]

theorem jsSplit_append (sep : Nat) : ∀ a b : JSStr, sep ∉ a →
    jsSplit sep (a ++ sep :: b) = a :: jsSplit sep b := by
  intro a
  induction a with
  | nil =>
    intro b _
    simp [jsSplit]
  | cons c a2 ih =>
    intro b h
    have hc : c ≠ sep := fun he => h (by simp [he])
    have ha : sep ∉ a2 := fun hm => h (by simp [hm])
    rw [List.cons_append, jsSplit, if_neg hc, ih b ha]

theorem isPrefixBytes_append (pat rest : JSStr) : isPrefixBytes pat (pat ++ rest) = true := by
  induction pat with
  | nil => rfl
  | cons p ps ih => simp [isPrefixBytes, ih]

theorem removeFirstSub_append (pat rest : JSStr) (hne : pat ≠ []) :
    removeFirstSub pat (pat ++ rest) = rest := by
  cases pat with
  | nil => exact absurd rfl hne
  | cons p ps =>
    rw [List.cons_append, removeFirstSub,
      if_pos (by rw [← List.cons_append]; exact isPrefixBytes_append (p :: ps) rest)]
    rw [← List.cons_append, List.drop_left]

theorem bytesEqPat_ne_nil : bytesEqPat ≠ [] := by decide

theorem natBytes_no_sep (n : Nat) : 45 ∉ natBytes n := by
  intro hm
  have h := natBytes_all_digits n 45 hm
  exact absurd h (by decide)

/-- C5 counterexample: with the cached file resolved (size 1000), the
malformed header "bytes=abc-def" is NOT treated as absent: the route takes
the 206 range branch (status 206, NaN Content-Length from parseInt), while
the absent-header response is status 200. -/
theorem C5_counterexample :
    serveLocalFile 1000 (some (strBytes ("bytes=abc-def"))) ≠ serveLocalFile 1000 none ∧
    (serveLocalFile 1000 (some (strBytes ("bytes=abc-def")))).status = 206 ∧
    (serveLocalFile 1000 (some (strBytes ("bytes=abc-def")))).contentLength = none ∧
    (serveLocalFile 1000 none).status = 200 := by decide

/-- C5 amended: a malformed Range header is not treated as absent. Every
truthy (non-empty) Range header, malformed or not, is handled by the
byte-range branch: status 206 with offsets taken from JS parseInt (NaN for
non-numeric parts); only an absent (or empty, hence falsy) header yields
the 200 full-content response. -/
theorem C5_amended (size : Nat) (r : JSStr) (h : r ≠ []) :
    (serveLocalFile size (some r)).status = 206 ∧
    serveLocalFile size none = fullResponse size := by
  constructor
  · rw [serveLocalFile, if_neg (by simp [List.isEmpty_eq_true, h])]
  · rfl

/-- Witness for C5 amended at a concrete well-formed header. -/
theorem C5_amended_witness :
    (strBytes ("bytes=0-10") ≠ ([] : JSStr)) ∧
    (serveLocalFile 100 (some (strBytes ("bytes=0-10")))).status = 206 ∧
    serveLocalFile 100 none = fullResponse 100 :=
  ⟨by decide, (C5_amended 100 (strBytes ("bytes=0-10")) (by decide)).1,
    (C5_amended 100 (strBytes ("bytes=0-10")) (by decide)).2⟩

/-- C10: the stream route's range branch performs no bounds validation
against the file size: for every cached file of size S and every numeric
header bytes=s-e (45 is '-'), the assembled response is status 206 with
Content-Range bytes s-e/S and Content-Length e-s+1, and the read stream is
opened on exactly those raw offsets - including when s > e or e >= S. -/
theorem C10_no_bounds_validation (S s e : Nat) :
    serveLocalFile S (some (bytesEqPat ++ (natBytes s ++ 45 :: natBytes e)))
      = ⟨206, some ((e : Int) - (s : Int) + 1),
          some (some (s : Int), some (e : Int), S),
          some (some (s : Int), some (e : Int))⟩ := by
  have hne : ¬ ((bytesEqPat ++ (natBytes s ++ 45 :: natBytes e)).isEmpty = true) := by
    simp [List.isEmpty_eq_true, bytesEqPat_ne_nil]
  have hsplit : jsSplit 45 (natBytes s ++ 45 :: natBytes e) = [natBytes s, natBytes e] := by
    rw [jsSplit_append 45 _ _ (natBytes_no_sep s), jsSplit_no_sep 45 _ (natBytes_no_sep e)]
  have hEne : ¬ ((natBytes e).isEmpty = true) := by
    simp [List.isEmpty_eq_true, natBytes_ne_nil]
  rw [serveLocalFile, if_neg hne]
  simp only [removeFirstSub_append _ _ bytesEqPat_ne_nil, hsplit, List.headD, List.drop,
    if_neg hEne, parseIntJS_natBytes, jsSub, jsAdd]

/-- VideoSSHManager constructor line 8: tempDir, with the separator that
path.join inserts. -/
def tempDirBytes : JSStr := strBytes ("/tmp/video-cache/")

/-- VideoSSHManager.js line 132: freshness threshold for cache hits in
downloadVideoToTemp, 60*60*1000 ms. -/
def downloadFreshnessMs : Nat := 60 * 60 * 1000

/-- VideoSSHManager.js line 36: max age used by the cleanupOldFiles sweep,
60*60*1000 ms. -/
def cleanupMaxAgeMs : Nat := 60 * 60 * 1000

/-- An in-flight DownloadTask: the shared promise (identified by tid) and
the local file it writes. -/
structure TaskEntry where
  tid : Nat
  localPath : JSStr
deriving DecidableEq

/-- Coordinator state: downloadQueue (videoId -> in-flight task), the next
fresh task id, and the list of transfers that have been started (each
entry is one remote SFTP transfer). -/
structure CoordState where
  queue : List (JSStr × TaskEntry)
  nextTid : Nat
  started : List TaskEntry
deriving DecidableEq

/-- First-match association lookup (Map.get semantics). -/
def lookupAssoc {β : Type} (k : JSStr) : List (JSStr × β) → Option β
  | [] => none
  | (k2, v) :: rest => if k2 = k then some v else lookupAssoc k rest

/-- Remove every binding of a key (Map.delete semantics). -/
def eraseKey {β : Type} (k : JSStr) : List (JSStr × β) → List (JSStr × β)
  | [] => []
  | (k2, v) :: rest => if k2 = k then eraseKey k rest else (k2, v) :: eraseKey k rest

/-- VideoSSHManager.js lines 123-124: the cache file of a video is
path.join(tempDir, videoId + "_" + basename(remotePath)); 95 is '_'. -/
def localPathFor (videoId remotePath : JSStr) : JSStr :=
  tempDirBytes ++ videoId ++ 95 :: basenameJS remotePath

/-- What one call to downloadVideoToTemp resolves to at its first
decision: the shared promise of an in-flight task (line 120), a cache hit
(lines 134-138), or a newly started transfer (lines 144-199). -/
inductive DVTRes
  | shared (t : TaskEntry)
  | cachedHit (localPath : JSStr)
  | started (t : TaskEntry)
deriving DecidableEq

/-- Lines 144-199: the download promise is created (the remote transfer
begins) and the task is registered in the downloadQueue within the same
synchronous block - no other request is interleaved between the two. -/
def startNewTask (s : CoordState) (videoId localPath : JSStr) : DVTRes × CoordState :=
  let t : TaskEntry := ⟨s.nextTid, localPath⟩
  (.started t,
   { queue := (videoId, t) :: eraseKey videoId s.queue
     nextTid := s.nextTid + 1
     started := t :: s.started })

/-- downloadVideoToTemp (lines 116-199) as one scheduling step of the
event loop: the downloadQueue check at lines 119-121 comes first; only
then the cache file is stat-ed (files maps cache file names to mtimes)
and its age compared with the freshness threshold at line 132; otherwise
a fresh transfer is started and registered. -/
def downloadVideoStep (files : List (JSStr × Nat)) (now : Nat) (s : CoordState)
    (videoId remotePath : JSStr) : DVTRes × CoordState :=
  match lookupAssoc videoId s.queue with
  | some t => (.shared t, s)
  | none =>
    let lp := localPathFor videoId remotePath
    match lookupAssoc lp files with
    | some mtime =>
      if now - mtime < downloadFreshnessMs then (.cachedHit lp, s)
      else startNewTask s videoId lp
    | none => startNewTask s videoId lp

/-- A sequence of downloadVideoToTemp calls processed in arrival order
(each call's queue check is one atomic event-loop step). -/
def processArrivals (files : List (JSStr × Nat)) (now : Nat) :
    CoordState → List (JSStr × JSStr) → List DVTRes × CoordState
  | s, [] => ([], s)
  | s, (vid, rp) :: rest =>
    let step := downloadVideoStep files now s vid rp
    let next := processArrivals files now step.2 rest
    (step.1 :: next.1, next.2)

/-- The outcome a caller eventually observes, given how each task's shared
promise settles (tid -> settled result). A cache hit resolves locally to
its cached file. -/
def awaitResult (settle : Nat → Except JSStr JSStr) : DVTRes → Except JSStr JSStr
  | .shared t => settle t.tid
  | .started t => settle t.tid
  | .cachedHit lp => .ok lp

/-- How a transfer failed: connection/sftp setup failure (lines 149-155
and 191-193, before the local write stream exists), or a read/write
stream error (lines 166-177). -/
inductive FailKind
  | connError
  | readError
  | writeError
deriving DecidableEq

/-- The failure path of downloadVideoToTemp: the stream error handlers
unlink the partial local file (lines 169 and 175), and the outer catch
removes the queue entry and rethrows the same error to every awaiter of
the shared promise (lines 206-210). Returns the cache files afterwards,
the coordinator state afterwards, and the settled result. -/
def failTransfer (kind : FailKind) (files : List (JSStr × Nat)) (s : CoordState)
    (videoId : JSStr) (t : TaskEntry) (err : JSStr) :
    List (JSStr × Nat) × CoordState × Except JSStr JSStr :=
  let files2 := match kind with
    | .connError => files
    | .readError => eraseKey t.localPath files
    | .writeError => eraseKey t.localPath files
  (files2, { s with queue := eraseKey videoId s.queue }, .error err)

/-- cleanupOldFiles (lines 32-50): every cache file strictly older than
cleanupMaxAgeMs is unlinked; the downloadQueue is never consulted. -/
def cleanupOldFiles (now : Nat) : List (JSStr × Nat) → List (JSStr × Nat)
  | [] => []
  | (name, mtime) :: rest =>
    if now - mtime > cleanupMaxAgeMs then cleanupOldFiles now rest
    else (name, mtime) :: cleanupOldFiles now rest

/-- clearCache (lines 371-386): unlinks every file of tempDir
unconditionally and reports the removed count; the downloadQueue is never
consulted. -/
def clearCache (files : List (JSStr × Nat)) : List (JSStr × Nat) × Nat :=
  ([], files.length)

/-- f is the active write target of an in-flight DownloadTask. -/
def isActiveTarget (s : CoordState) (f : JSStr) : Prop :=
  ∃ vid t, lookupAssoc vid s.queue = some t ∧ t.localPath = f

theorem lookupAssoc_eraseKey {β : Type} (k : JSStr) :
    ∀ l : List (JSStr × β), lookupAssoc k (eraseKey k l) = none := by
  intro l
  induction l with
  | nil => rfl
  | cons kv rest ih =>
    obtain ⟨k2, v⟩ := kv
    rw [eraseKey]
    split
    · exact ih
    · rw [lookupAssoc, if_neg (by assumption), ih]

theorem processArrivals_shared (files : List (JSStr × Nat)) (now : Nat) (s : CoordState)
    (videoId remotePath : JSStr) (t : TaskEntry)
    (hq : lookupAssoc videoId s.queue = some t) :
    ∀ n, processArrivals files now s (List.replicate n (videoId, remotePath))
      = (List.replicate n (.shared t), s) := by
  intro n
  induction n with
  | zero => rfl
  | succ m ih =>
    have hstep : downloadVideoStep files now s videoId remotePath = (DVTRes.shared t, s) := by
      rw [downloadVideoStep, hq]
    simp only [List.replicate_succ, processArrivals, hstep, ih]

/-- C2: when n requests for the same identifier arrive while a transfer
is active (the task is registered in the downloadQueue - registration and
transfer start happen in one synchronous block, lines 144-199), every one
of them is answered from the queue check at lines 119-121: no new
transfer is started (the state, hence the started list, is unchanged),
every caller receives the same shared task as the initiator (which is
among the started transfers), and all of them observe the identical
eventual outcome of that task's shared promise. -/
theorem C2_thundering_herd (files : List (JSStr × Nat)) (now : Nat) (s : CoordState)
    (videoId remotePath : JSStr) (t : TaskEntry) (n : Nat)
    (settle : Nat → Except JSStr JSStr)
    (hq : lookupAssoc videoId s.queue = some t)
    (hinit : t ∈ s.started) (hn : 2 ≤ n) :
    processArrivals files now s (List.replicate n (videoId, remotePath))
      = (List.replicate n (.shared t), s) ∧
    (processArrivals files now s (List.replicate n (videoId, remotePath))).1.map
        (awaitResult settle) = List.replicate n (settle t.tid) := by
  have h := processArrivals_shared files now s videoId remotePath t hq n
  refine ⟨h, ?_⟩
  rw [h]
  simp [awaitResult, List.map_replicate]

/-- Witness for C2 with two concurrent arrivals against an active task. -/
theorem C2_thundering_herd_witness :
    lookupAssoc (strBytes ("vid1"))
        [(strBytes ("vid1"), (⟨0, strBytes ("lp")⟩ : TaskEntry))]
      = some ⟨0, strBytes ("lp")⟩ ∧
    (⟨0, strBytes ("lp")⟩ : TaskEntry) ∈ [(⟨0, strBytes ("lp")⟩ : TaskEntry)] ∧ 2 ≤ 2 ∧
    processArrivals [] 0
        ⟨[(strBytes ("vid1"), ⟨0, strBytes ("lp")⟩)], 1, [⟨0, strBytes ("lp")⟩]⟩
        (List.replicate 2 (strBytes ("vid1"), strBytes ("/x/v.mp4")))
      = (List.replicate 2 (.shared ⟨0, strBytes ("lp")⟩),
         ⟨[(strBytes ("vid1"), ⟨0, strBytes ("lp")⟩)], 1, [⟨0, strBytes ("lp")⟩]⟩) :=
  ⟨by decide, by decide, by decide,
    (C2_thundering_herd [] 0
      ⟨[(strBytes ("vid1"), ⟨0, strBytes ("lp")⟩)], 1, [⟨0, strBytes ("lp")⟩]⟩
      (strBytes ("vid1")) (strBytes ("/x/v.mp4")) ⟨0, strBytes ("lp")⟩ 2
      (fun _ => Except.ok []) (by decide) (by decide) (by decide)).1⟩

/-- C3 counterexample: an identifier whose cache file exists with age 0
(strictly below the threshold) while a task for it is in flight: the
downloadQueue check precedes the cache check, so the call returns the
shared in-flight task, not the cached file with cached=true. -/
theorem C3_counterexample :
    (downloadVideoStep
        [(localPathFor (strBytes ("abc")) (strBytes ("/x/v.mp4")), 1000)] 1000
        ⟨[(strBytes ("abc"), ⟨0, localPathFor (strBytes ("abc")) (strBytes ("/x/v.mp4"))⟩)],
          1, [⟨0, localPathFor (strBytes ("abc")) (strBytes ("/x/v.mp4"))⟩]⟩
        (strBytes ("abc")) (strBytes ("/x/v.mp4"))).1
      = DVTRes.shared ⟨0, localPathFor (strBytes ("abc")) (strBytes ("/x/v.mp4"))⟩ ∧
    1000 - 1000 < downloadFreshnessMs ∧
    DVTRes.shared ⟨0, localPathFor (strBytes ("abc")) (strBytes ("/x/v.mp4"))⟩
      ≠ DVTRes.cachedHit (localPathFor (strBytes ("abc")) (strBytes ("/x/v.mp4"))) := by
  refine ⟨by decide, by decide, by decide⟩

/-- C3 amended: provided no task for the identifier is in the
downloadQueue (the queue check at lines 119-121 precedes the cache
check), a cache file with age strictly below the freshness threshold is
returned as a cache hit with the state unchanged (zero remote I/O), and a
cache file at or above the threshold leads to a fresh registered
transfer. -/
theorem C3_amended (files : List (JSStr × Nat)) (now : Nat) (s : CoordState)
    (videoId remotePath : JSStr) (mtime : Nat)
    (hq : lookupAssoc videoId s.queue = none)
    (hf : lookupAssoc (localPathFor videoId remotePath) files = some mtime) :
    (now - mtime < downloadFreshnessMs →
      downloadVideoStep files now s videoId remotePath
        = (.cachedHit (localPathFor videoId remotePath), s)) ∧
    (downloadFreshnessMs ≤ now - mtime →
      downloadVideoStep files now s videoId remotePath
        = startNewTask s videoId (localPathFor videoId remotePath)) := by
  constructor
  · intro hlt
    rw [downloadVideoStep, hq]
    simp only [hf]
    rw [if_pos hlt]
  · intro hge
    rw [downloadVideoStep, hq]
    simp only [hf]
    rw [if_neg (by omega)]

/-- Witness for C3 amended: a fresh cache file with an empty queue is a
cache hit with unchanged state. -/
theorem C3_amended_witness :
    lookupAssoc (strBytes ("abc")) ([] : List (JSStr × TaskEntry)) = none ∧
    lookupAssoc (localPathFor (strBytes ("abc")) (strBytes ("/x/v.mp4")))
        [(localPathFor (strBytes ("abc")) (strBytes ("/x/v.mp4")), 500)] = some 500 ∧
    500 - 500 < downloadFreshnessMs ∧
    downloadVideoStep [(localPathFor (strBytes ("abc")) (strBytes ("/x/v.mp4")), 500)] 500
        ⟨[], 0, []⟩ (strBytes ("abc")) (strBytes ("/x/v.mp4"))
      = (.cachedHit (localPathFor (strBytes ("abc")) (strBytes ("/x/v.mp4"))), ⟨[], 0, []⟩) :=
  ⟨by decide, by decide, by decide,
    (C3_amended [(localPathFor (strBytes ("abc")) (strBytes ("/x/v.mp4")), 500)] 500
      ⟨[], 0, []⟩ (strBytes ("abc")) (strBytes ("/x/v.mp4")) 500
      (by decide) (by decide)).1 (by decide)⟩

/-- C4: when a transfer fails (connection failure before the write stream
exists, or a read/write stream error), afterwards the partial local file
is not visible in the cache (it is unlinked by the stream error handlers;
in the connection case it was never created), the identifier's entry is
removed from the downloadQueue, and the same error settles the shared
promise, so the initiator and every awaiting caller observe that
identical failure. -/
theorem C4_failure_cleanup (kind : FailKind) (files : List (JSStr × Nat)) (s : CoordState)
    (videoId : JSStr) (t : TaskEntry) (err : JSStr) (n : Nat)
    (hq : lookupAssoc videoId s.queue = some t)
    (hconn : kind = FailKind.connError → lookupAssoc t.localPath files = none) :
    lookupAssoc t.localPath (failTransfer kind files s videoId t err).1 = none ∧
    lookupAssoc videoId (failTransfer kind files s videoId t err).2.1.queue = none ∧
    (failTransfer kind files s videoId t err).2.2 = Except.error err ∧
    (List.replicate n (DVTRes.shared t)).map
        (awaitResult (fun tid => if tid = t.tid then Except.error err else Except.ok []))
      = List.replicate n (Except.error err) := by
  refine ⟨?_, ?_, rfl, ?_⟩
  · cases kind with
    | connError => exact hconn rfl
    | readError => exact lookupAssoc_eraseKey _ files
    | writeError => exact lookupAssoc_eraseKey _ files
  · exact lookupAssoc_eraseKey _ s.queue
  · simp [awaitResult, List.map_replicate]

/-- Witness for C4 with a read-stream error on a registered task. -/
theorem C4_failure_cleanup_witness :
    lookupAssoc (strBytes ("vid1")) [(strBytes ("vid1"), (⟨0, strBytes ("f")⟩ : TaskEntry))]
      = some ⟨0, strBytes ("f")⟩ ∧
    lookupAssoc (strBytes ("f"))
        (failTransfer FailKind.readError [(strBytes ("f"), 7)]
          ⟨[(strBytes ("vid1"), ⟨0, strBytes ("f")⟩)], 1, [⟨0, strBytes ("f")⟩]⟩
          (strBytes ("vid1")) ⟨0, strBytes ("f")⟩ (strBytes ("oops"))).1 = none :=
  ⟨by decide,
    (C4_failure_cleanup FailKind.readError [(strBytes ("f"), 7)]
      ⟨[(strBytes ("vid1"), ⟨0, strBytes ("f")⟩)], 1, [⟨0, strBytes ("f")⟩]⟩
      (strBytes ("vid1")) ⟨0, strBytes ("f")⟩ (strBytes ("oops")) 2 (by decide)
      (fun h => absurd h (by decide))).1⟩

/-- C6 counterexample: the sweep's max-age threshold (line 36) is NOT
strictly larger than the freshness threshold used for cache-hit decisions
(line 132) - both are 60*60*1000 ms. -/
theorem C6_counterexample : ¬ downloadFreshnessMs < cleanupMaxAgeMs := by decide

/-- C6 amended: the sweep's max-age threshold equals the cache-hit
freshness threshold; both are 3600000 ms (1 hour). -/
theorem C6_amended : cleanupMaxAgeMs = downloadFreshnessMs ∧ cleanupMaxAgeMs = 3600000 := by
  decide

/-- C7 counterexample: clearCache deletes every cache file
unconditionally, including the active write target of an in-flight
DownloadTask: here f is the write target of the registered task, is
present in the cache directory, and no file survives the clear. -/
theorem C7_counterexample :
    isActiveTarget
      ⟨[(strBytes ("abc"), ⟨0, strBytes ("/tmp/video-cache/abc_v.mp4")⟩)], 1,
        [⟨0, strBytes ("/tmp/video-cache/abc_v.mp4")⟩]⟩
      (strBytes ("/tmp/video-cache/abc_v.mp4")) ∧
    (strBytes ("/tmp/video-cache/abc_v.mp4"), 500)
        ∈ [(strBytes ("/tmp/video-cache/abc_v.mp4"), 500)] ∧
    (clearCache [(strBytes ("/tmp/video-cache/abc_v.mp4"), 500)]).1 = [] := by
  refine ⟨⟨strBytes ("abc"), ⟨0, strBytes ("/tmp/video-cache/abc_v.mp4")⟩, by decide, rfl⟩,
    by decide, rfl⟩

theorem mem_cleanupOldFiles (now : Nat) :
    ∀ (files : List (JSStr × Nat)) (f : JSStr) (m : Nat),
      (f, m) ∈ files → now - m ≤ cleanupMaxAgeMs → (f, m) ∈ cleanupOldFiles now files := by
  intro files
  induction files with
  | nil =>
    intro f m hmem _
    cases hmem
  | cons a rest ih =>
    intro f m hmem hfresh
    obtain ⟨name, mt⟩ := a
    rw [cleanupOldFiles]
    rcases List.mem_cons.mp hmem with he | hm
    · injection he with h1 h2
      subst h1
      subst h2
      rw [if_neg (by omega)]
      exact List.mem_cons_self _ _
    · split
      · exact ih f m hm hfresh
      · exact List.mem_cons_of_mem _ (ih f m hm hfresh)

/-- C7 amended: the sweep only deletes files strictly older than one
hour, so a file whose age is at most cleanupMaxAgeMs - in particular an
active write target whose mtime is being refreshed by the ongoing writes
- survives a sweep pass; clearCache however deletes every cache file
unconditionally, active write targets included. -/
theorem C7_amended (now : Nat) (files : List (JSStr × Nat)) (f : JSStr) (m : Nat)
    (hmem : (f, m) ∈ files) (hfresh : now - m ≤ cleanupMaxAgeMs) :
    (f, m) ∈ cleanupOldFiles now files ∧ (clearCache files).1 = [] :=
  ⟨mem_cleanupOldFiles now files f m hmem hfresh, rfl⟩

/-- Witness for C7 amended: a fresh file survives the sweep. -/
theorem C7_amended_witness :
    ((strBytes ("g"), 10) ∈ [(strBytes ("g"), 10)]) ∧ 20 - 10 ≤ cleanupMaxAgeMs ∧
    ((strBytes ("g"), 10) ∈ cleanupOldFiles 20 [(strBytes ("g"), 10)] ∧
      (clearCache [(strBytes ("g"), 10)]).1 = []) :=
  ⟨by decide, by decide,
    C7_amended 20 [(strBytes ("g"), 10)] (strBytes ("g")) 10 (by decide) (by decide)⟩

/-- The content root of the media server layout
(VideoSSHManager.js line 54). -/
def contentRoot : JSStr := strBytes ("/usr/local/WowzaStreamingEngine/content/")

/-- The owner segment of an absolute content path, per the spec's notion
of ownership: the path component right after the content root (the code's
own layout at VideoSSHManager.js line 54 places userLogin there). Stated
for comparison with the route's actual check. -/
def ownerSegment (p : JSStr) : Option JSStr :=
  if isPrefixBytes contentRoot p then
    some ((p.drop contentRoot.length).takeWhile (fun c => c != 47))
  else none

/-- Outcome of the stream route's access stage. -/
inductive GateResult
  | forbidden403
  | proceed (remotePath : JSStr)
deriving DecidableEq

/-- Remote work performed by the stream route after the access check. -/
inductive RemoteEffect
  | dbQuery
  | sshTransfer (remotePath : JSStr)
deriving DecidableEq

/-- videos-ssh.js GET /stream lines 338-360 up to the coordinator call:
decode the identifier (line 339), then the ownership check at line 342 -
remotePath.includes('/' + userLogin + '/') - and return 403 with no
remote work when it fails; otherwise proceed to the database query
(line 350) and the SSH-backed transfer (line 360). 47 is '/'. -/
def streamRouteGate (userLogin : JSStr) (videoId : JSStr) : GateResult × List RemoteEffect :=
  let remotePath := decodeVideoId videoId
  if containsSub (47 :: userLogin ++ [47]) remotePath then
    (.proceed remotePath, [.dbQuery, .sshTransfer remotePath])
  else
    (.forbidden403, [])

/-- C8 counterexample: a decoded path whose owner segment is "bob", not
the caller "alice", still passes the route's check because the check is
substring containment of "/alice/" anywhere in the path, not an
owner-segment comparison: no 403 is returned. -/
theorem C8_counterexample :
    ownerSegment (strBytes ("/usr/local/WowzaStreamingEngine/content/bob/alice/v.mp4"))
      = some (strBytes ("bob")) ∧
    some (strBytes ("bob")) ≠ some (strBytes ("alice")) ∧
    (streamRouteGate (strBytes ("alice"))
        (encodeVideoId
          (strBytes ("/usr/local/WowzaStreamingEngine/content/bob/alice/v.mp4")))).1
      ≠ GateResult.forbidden403 := by decide

/-- C8 amended: the stream route returns 403 with zero remote I/O exactly
when the decoded path does not contain '/' ++ login ++ '/' as a
substring; the check is substring containment, not an owner-segment
comparison, so a path whose owner segment differs from the caller login
but contains the login as a later path component is not rejected. -/
theorem C8_amended (login : JSStr) (videoId : JSStr) :
    (containsSub (47 :: login ++ [47]) (decodeVideoId videoId) = false →
      streamRouteGate login videoId = (GateResult.forbidden403, [])) ∧
    (containsSub (47 :: login ++ [47]) (decodeVideoId videoId) = true →
      streamRouteGate login videoId
        = (GateResult.proceed (decodeVideoId videoId),
           [.dbQuery, .sshTransfer (decodeVideoId videoId)])) := by
  constructor
  · intro h
    rw [streamRouteGate]
    simp only [h, Bool.false_eq_true, if_false]
  · intro h
    rw [streamRouteGate]
    simp only [h, if_true]

/-- Witness for C8 amended: an identifier decoding to a path without
"/alice/" is rejected with 403 and no remote effects. -/
theorem C8_amended_witness :
    containsSub (47 :: strBytes ("alice") ++ [47])
        (decodeVideoId (encodeVideoId
          (strBytes ("/usr/local/WowzaStreamingEngine/content/bob/clips/v.mp4")))) = false ∧
    streamRouteGate (strBytes ("alice"))
        (encodeVideoId (strBytes ("/usr/local/WowzaStreamingEngine/content/bob/clips/v.mp4")))
      = (GateResult.forbidden403, []) :=
  ⟨by decide,
    (C8_amended (strBytes ("alice"))
      (encodeVideoId
        (strBytes ("/usr/local/WowzaStreamingEngine/content/bob/clips/v.mp4")))).1
      (by decide)⟩

/-- Lower-casing of an ASCII byte, for the case-insensitive extension
regexes of the '/content' middleware. -/
def toLowerByte (c : Nat) : Nat := if 65 ≤ c ∧ c ≤ 90 then c + 32 else c

/-- Whether s ends with the given suffix. -/
def endsWithBytes (suffixPat s : JSStr) : Bool :=
  isPrefixBytes suffixPat.reverse s.reverse

/-- server entry file, '/content' middleware: the on-demand video
extensions of the test at line 646. -/
def videoExts : List JSStr :=
  [strBytes (".mp4"), strBytes (".avi"), strBytes (".mov"), strBytes (".wmv"),
   strBytes (".flv"), strBytes (".webm"), strBytes (".mkv")]

/-- The streaming-class extensions of the test at line 647. -/
def streamExts : List JSStr := [strBytes (".m3u8"), strBytes (".ts")]

/-- Line 646: the case-insensitive video-file extension test. -/
def isVideoFilePath (p : JSStr) : Bool :=
  videoExts.any (fun e => endsWithBytes e (p.map toLowerByte))

/-- Line 647: the case-insensitive stream-file (m3u8/ts) extension test. -/
def isStreamFilePath (p : JSStr) : Bool :=
  streamExts.any (fun e => endsWithBytes e (p.map toLowerByte))

/-- One upstream HTTP attempt made by the middleware: whether credentials
are embedded in the URL (user:pass@host form, line 704), the port, the
request path, and whether the Basic Authorization header is attached to
the request headers (lines 720-723). -/
structure UpstreamRequest where
  credsInUrl : Bool
  port : Nat
  path : JSStr
  authHeader : Bool
deriving DecidableEq

/-- An upstream response, reduced to its HTTP status. -/
structure UpstreamResponse where
  status : Nat
deriving DecidableEq

/-- node-fetch Response.ok: status in the 2xx range. -/
def respOk (r : UpstreamResponse) : Bool := decide (200 ≤ r.status ∧ r.status < 300)

/-- What the middleware sends back to the caller. -/
inductive ProxyOutcome
  | next
  | unsupported404
  | piped (r : UpstreamResponse)
  | notFound404 (upstreamStatus : Nat)
deriving DecidableEq

/-- The '/content' proxy middleware (server entry file lines 633-781),
modelled at the level of upstream attempts: SSH-route requests fall
through (line 640), unknown extensions get 404 (line 649), stream-class
paths go to port 1935 with no credentials, video-class (on-demand) paths
go to port 6980 with credentials embedded in the URL and a Basic auth
header; on a non-ok first response with status 401 or 403 a single
alternative attempt is made against the same path with no credentials in
the URL and the same headers (lines 736-759); any remaining failure is
returned as 404 carrying the first upstream status (line 762). Returns
the outcome and the list of upstream attempts in order. -/
def contentProxy (upstream : UpstreamRequest → UpstreamResponse) (requestPath : JSStr) :
    ProxyOutcome × List UpstreamRequest :=
  if containsSub (strBytes ("/api/videos-ssh/")) requestPath then (.next, [])
  else if !(isVideoFilePath requestPath) && !(isStreamFilePath requestPath) then
    (.unsupported404, [])
  else
    let req1 : UpstreamRequest :=
      if isStreamFilePath requestPath then ⟨false, 1935, requestPath, false⟩
      else ⟨true, 6980, requestPath, true⟩
    let r1 := upstream req1
    if respOk r1 then (.piped r1, [req1])
    else if r1.status = 401 ∨ r1.status = 403 then
      let req2 : UpstreamRequest := ⟨false, 6980, requestPath, req1.authHeader⟩
      let r2 := upstream req2
      if respOk r2 then (.piped r2, [req1, req2])
      else (.notFound404 r1.status, [req1, req2])
    else (.notFound404 r1.status, [req1])

/-- C9: for an on-demand (video-file class) proxy request whose first
upstream attempt (credentials embedded in the URL, Basic auth header
attached) answers 401 or 403, the middleware makes exactly one retry
against the same path with no credentials embedded in the retry URL (the
Basic auth header, the alternate credential-passing method, is still
attached), and only returns the error 404 to the caller after that single
retry also fails; if the retry succeeds its response is piped through. -/
theorem C9_auth_retry (upstream : UpstreamRequest → UpstreamResponse) (p : JSStr)
    (hnossh : containsSub (strBytes ("/api/videos-ssh/")) p = false)
    (hvid : isVideoFilePath p = true)
    (hstream : isStreamFilePath p = false)
    (hstatus : (upstream ⟨true, 6980, p, true⟩).status = 401 ∨
               (upstream ⟨true, 6980, p, true⟩).status = 403) :
    (contentProxy upstream p).2
      = [⟨true, 6980, p, true⟩, ⟨false, 6980, p, true⟩] ∧
    (respOk (upstream ⟨false, 6980, p, true⟩) = false →
      (contentProxy upstream p).1
        = .notFound404 (upstream ⟨true, 6980, p, true⟩).status) ∧
    (respOk (upstream ⟨false, 6980, p, true⟩) = true →
      (contentProxy upstream p).1 = .piped (upstream ⟨false, 6980, p, true⟩)) := by
  have hnotok : respOk (upstream ⟨true, 6980, p, true⟩) = false := by
    rcases hstatus with h | h <;> simp [respOk, h]
  refine ⟨?_, ?_, ?_⟩
  · by_cases hok2 : respOk (upstream ⟨false, 6980, p, true⟩) = true
    · rcases hstatus with h | h <;>
        simp [contentProxy, hnossh, hvid, hstream, hnotok, h, hok2]
    · rcases hstatus with h | h <;>
        simp [contentProxy, hnossh, hvid, hstream, hnotok, h, hok2]
  · intro hok2
    rcases hstatus with h | h <;>
      simp [contentProxy, hnossh, hvid, hstream, hnotok, h, hok2]
  · intro hok2
    rcases hstatus with h | h <;>
      simp [contentProxy, hnossh, hvid, hstream, hnotok, h, hok2]

/-- Witness for C9: a video path whose first attempt gets 403 and whose
retry gets 500 results in exactly the two attempts, in order. -/
theorem C9_auth_retry_witness :
    containsSub (strBytes ("/api/videos-ssh/"))
        (strBytes ("/content/alice/folder/v.mp4")) = false ∧
    isVideoFilePath (strBytes ("/content/alice/folder/v.mp4")) = true ∧
    isStreamFilePath (strBytes ("/content/alice/folder/v.mp4")) = false ∧
    (contentProxy (fun r => if r.credsInUrl then ⟨403⟩ else ⟨500⟩)
        (strBytes ("/content/alice/folder/v.mp4"))).2
      = [⟨true, 6980, strBytes ("/content/alice/folder/v.mp4"), true⟩,
         ⟨false, 6980, strBytes ("/content/alice/folder/v.mp4"), true⟩] :=
  ⟨by decide, by decide, by decide,
    (C9_auth_retry (fun r => if r.credsInUrl then ⟨403⟩ else ⟨500⟩)
      (strBytes ("/content/alice/folder/v.mp4")) (by decide) (by decide) (by decide)
      (Or.inr (by decide))).1⟩
